import Mathlib

set_option allowUnsafeReducibility true in
attribute [semireducible] Rat.add Rat.mul Rat.sub Rat.inv

set_option maxRecDepth 100000

/-!
Shallow embedding of the technical breakout-detection engine of the
repository (etf_breakout_analysis.py, industry_breakout_analysis.py,
etf_breakout_analysis_fixed.py, etf_analysis.py, simple_etf_analysis.py,
industry_daily_monitor.py, industry_daily_monitor_enhanced.py).

Prices and volumes are modelled as exact rationals.  pandas float columns
that can carry NaN or infinities (rolling means before their window fills,
the RSI ratio gain/loss) are modelled by the type `PVal` below, with the
IEEE-style propagation rules that numpy/pandas use (comparisons against
NaN are false, x/0 is a signed infinity for x nonzero and NaN for 0/0).
-/

/-- One daily OHLCV bar, as the scripts consume it after
`pd.to_numeric` conversion and date sorting.  The date itself is implicit
in the list order and never read by the modelled functions.
(`open` is a Lean keyword, hence `openPrice`.) -/
structure Bar where
  openPrice : ℚ
  high : ℚ
  low : ℚ
  close : ℚ
  volume : ℚ
  deriving Repr, DecidableEq

/-- Arithmetic mean of a list of rationals.  All call sites guard
nonemptiness (for `[]` it degenerates to `0 / 0 = 0` in `ℚ`). -/
def meanQ (l : List ℚ) : ℚ := l.sum / l.length

/-- Last `n` elements of a list: pandas `iloc[-n:]`. -/
def takeLast (n : ℕ) (l : List α) : List α := l.drop (l.length - n)

/-- pandas `iloc[-a:-b]` (for `0 < b < a`): the last `a` elements with the
last `b` removed. -/
def sliceLast (a b : ℕ) (l : List α) : List α := (takeLast a l).take (a - b)

/-- pandas `Series.max()` of a nonempty column. -/
def maxQ (l : List ℚ) : ℚ := l.foldl max l.headI

/-- pandas `Series.min()` of a nonempty column. -/
def minQ (l : List ℚ) : ℚ := l.foldl min l.headI

/-- Python `round` at an exactly representable value: round half to even.
(`num.fdiv den` is the floor of a rational, written without the `⌊⌋`
type-class route so that concrete values evaluate.) -/
def roundHalfEven (q : ℚ) : ℤ :=
  let f : ℤ := q.num.fdiv q.den
  let r : ℚ := q - f
  if r < 1 / 2 then f
  else if 1 / 2 < r then f + 1
  else if f % 2 = 0 then f else f + 1

/-- Python `round(x, d)` at an exactly representable value. -/
def roundTo (d : ℕ) (q : ℚ) : ℚ := (roundHalfEven (q * 10 ^ d) : ℚ) / 10 ^ d

/-- A pandas float cell: finite value, an infinity, or NaN (missing). -/
inductive PVal where
  | nan : PVal
  | pinf : PVal
  | ninf : PVal
  | val : ℚ → PVal
  deriving Repr, DecidableEq

/-- Float addition as numpy performs it. -/
def PVal.add : PVal → PVal → PVal
  | nan, _ => nan
  | _, nan => nan
  | pinf, ninf => nan
  | ninf, pinf => nan
  | pinf, _ => pinf
  | _, pinf => pinf
  | ninf, _ => ninf
  | _, ninf => ninf
  | val a, val b => val (a + b)

/-- Float subtraction as numpy performs it. -/
def PVal.sub : PVal → PVal → PVal
  | nan, _ => nan
  | _, nan => nan
  | pinf, pinf => nan
  | ninf, ninf => nan
  | pinf, _ => pinf
  | _, pinf => ninf
  | ninf, _ => ninf
  | _, ninf => pinf
  | val a, val b => val (a - b)

/-- Float division as numpy performs it: `x / 0` is a signed infinity for
`x ≠ 0` and NaN for `0 / 0`; a finite value over an infinity is `0`. -/
def PVal.div : PVal → PVal → PVal
  | nan, _ => nan
  | _, nan => nan
  | pinf, pinf => nan
  | pinf, ninf => nan
  | ninf, pinf => nan
  | ninf, ninf => nan
  | pinf, val b => if 0 ≤ b then pinf else ninf
  | ninf, val b => if 0 ≤ b then ninf else pinf
  | val _, pinf => val 0
  | val _, ninf => val 0
  | val a, val b =>
      if b ≠ 0 then val (a / b)
      else if 0 < a then pinf
      else if a < 0 then ninf
      else nan

/-- Comparison p < a as numpy evaluates it (any comparison with NaN is false). -/
def PVal.ltQ : PVal → ℚ → Bool
  | nan, _ => false
  | pinf, _ => false
  | ninf, _ => true
  | val q, a => decide (q < a)

/-- Comparison p > a as numpy evaluates it (any comparison with NaN is false). -/
def PVal.gtQ : PVal → ℚ → Bool
  | nan, _ => false
  | pinf, _ => true
  | ninf, _ => false
  | val q, a => decide (q > a)

/-- Comparison a > p as numpy evaluates it (any comparison with NaN is false). -/
def qGtP (a : ℚ) : PVal → Bool
  | .nan => false
  | .pinf => false
  | .ninf => true
  | .val q => decide (a > q)

/-- Rounding round(x, d) on a float cell (round of NaN/inf is NaN/inf). -/
def PVal.roundP (d : ℕ) : PVal → PVal
  | .val q => .val (roundTo d q)
  | p => p

/-- pandas `Series.rolling(window=w).mean()` read at position `i`:
NaN until the window is full (`min_periods` defaults to the window),
otherwise the mean of entries `i+1-w .. i`. -/
def rollingMeanP (w : ℕ) (xs : List ℚ) (i : ℕ) : PVal :=
  if 0 < w ∧ w ≤ i + 1 ∧ i < xs.length then
    .val (meanQ ((xs.take (i + 1)).drop (i + 1 - w)))
  else .nan

/-- Tail of the exponentially weighted mean: `e` is the previous state. -/
def emaFrom (alpha : ℚ) (e : ℚ) : List ℚ → List ℚ
  | [] => []
  | x :: xs =>
      let e2 := alpha * x + (1 - alpha) * e
      e2 :: emaFrom alpha e2 xs

/-- pandas `Series.ewm(span=s, adjust=False).mean()`: smoothing factor
`alpha = 2 / (s + 1)`, seeded by the first element. -/
def ema (span : ℕ) : List ℚ → List ℚ
  | [] => []
  | x :: xs => x :: emaFrom ((2 : ℚ) / (span + 1)) x xs

/-- Daily close deltas, close.diff(), followed by the masks below: position 0 carries NaN in
pandas, and both `delta.where(delta > 0, 0)` and `delta.where(delta < 0, 0)`
turn that NaN into 0 (a NaN comparison is false), so it is carried as 0. -/
def diffs : List ℚ → List ℚ
  | [] => []
  | x :: xs => 0 :: List.zipWith (fun a b => b - a) (x :: xs) xs

/-- The gain series delta.where(delta > 0, 0): positive daily deltas, 0 elsewhere. -/
def gains (xs : List ℚ) : List ℚ := (diffs xs).map (fun d => if 0 < d then d else 0)

/-- The loss series -delta.where(delta < 0, 0): absolute negative daily deltas, 0 elsewhere. -/
def losses (xs : List ℚ) : List ℚ := (diffs xs).map (fun d => if d < 0 then -d else 0)

/-- RSI(14) as etf_breakout_analysis.py / etf_breakout_analysis_fixed.py /
industry_breakout_analysis.py compute it:
`rs = gain / loss; RSI = 100 - (100 / (1 + rs))` with float semantics
(a zero-loss window with positive gain gives `rs = +inf`, hence RSI `100`;
an all-flat window gives `rs = 0 / 0 = NaN`, hence RSI NaN). -/
def rsi (closes : List ℚ) (i : ℕ) : PVal :=
  let rs := PVal.div (rollingMeanP 14 (gains closes) i) (rollingMeanP 14 (losses closes) i)
  PVal.sub (.val 100) (PVal.div (.val 100) (PVal.add (.val 1) rs))

/-- RSI(14) in the epsilon variant of simple_etf_analysis.py / etf_analysis.py:
`rs = gain / (loss + 1e-8)`, which never divides by zero. -/
def rsiSimple (closes : List ℚ) (i : ℕ) : PVal :=
  let rs := PVal.div (rollingMeanP 14 (gains closes) i)
      (PVal.add (rollingMeanP 14 (losses closes) i) (.val (1 / 100000000)))
  PVal.sub (.val 100) (PVal.div (.val 100) (PVal.add (.val 1) rs))

/-- MACD line: EMA(span=f) minus EMA(span=s) of the closes. -/
def macdLineS (f s : ℕ) (closes : List ℚ) : List ℚ :=
  List.zipWith (fun a b => a - b) (ema f closes) (ema s closes)

/-- MACD line with the canonical spans 12/26 (etf_breakout_analysis.py,
industry_breakout_analysis.py, etf_analysis.py, simple_etf_analysis.py). -/
def macdLine (closes : List ℚ) : List ℚ := macdLineS 12 26 closes

/-- MACD signal line: EMA(span=9) of the MACD line. -/
def macdSignal (closes : List ℚ) : List ℚ := ema 9 (macdLine closes)

/-- The assessment dict built by check_bottom_breakout in
etf_breakout_analysis.py (the scoring logic, condition flags, bonus points
and all_conditions_met are line-identical in industry_breakout_analysis.py;
only the name/code keys and the display rounding width differ there).
Display-only fields are stored rounded exactly as the source rounds them. -/
structure Result where
  etfName : String
  etfCode : String
  currentPrice : ℚ
  maxPrice120 : ℚ
  minPrice60 : ℚ
  drawdown : ℚ
  volumeRate : ℚ
  priceBreakMa20 : Bool
  priceBreakHigh : Bool
  macdGoldenCross : Bool
  rsiRecovery : Bool
  rsiCurrent : PVal
  ma20 : PVal
  recentHigh : ℚ
  score : ℕ
  condition1 : Bool
  condition2 : Bool
  condition3 : Bool
  condition4 : Bool
  allConditionsMet : Bool
  deriving Repr, DecidableEq

/-- Body of check_bottom_breakout (etf_breakout_analysis.py, lines 135-220),
evaluated after the length guard, over a frame already augmented by
calculate_technical_indicators (whose indicator columns are recomputed here
from the closes; `volume_ratio` is carried as `volumeRate`). -/
def mkResult (df : List Bar) (etfName etfCode : String) : Result :=
  let closes := df.map Bar.close
  let n := df.length
  let recent := takeLast 60 df
  let currentPrice := closes.getD (n - 1) 0
  let maxPrice120 := maxQ closes
  let minPrice60 := minQ (recent.map Bar.close)
  let drawdown := if 0 < maxPrice120 then (maxPrice120 - minPrice60) / maxPrice120 else 0
  let recentVolumeMean := meanQ (takeLast 10 (recent.map Bar.volume))
  let bottomVolumeMean := meanQ (sliceLast 20 10 (recent.map Bar.volume))
  let volumeRate := if 0 < bottomVolumeMean then recentVolumeMean / bottomVolumeMean else 1
  let ma20v := rollingMeanP 20 closes (n - 1)
  let priceBreakMa20 := qGtP currentPrice ma20v
  let recentHigh := maxQ (sliceLast 20 1 (recent.map Bar.high))
  let priceBreakHigh := decide (currentPrice > recentHigh)
  let macdL := macdLine closes
  let macdS := macdSignal closes
  let macdGoldenCross := decide (macdL.getD (n - 1) 0 > macdS.getD (n - 1) 0) &&
    decide (macdL.getD (n - 2) 0 ≤ macdS.getD (n - 2) 0)
  let rsiCurrent := rsi closes (n - 1)
  let rsiPrevious := rsi closes (n - 5)
  let rsiRecovery := rsiPrevious.ltQ 30 && rsiCurrent.gtQ 50
  let condition1 := decide (drawdown > 1 / 5)
  let condition2 := decide (volumeRate > 3 / 2)
  let condition3 := priceBreakMa20 || priceBreakHigh
  let condition4 := macdGoldenCross || rsiRecovery
  let score : ℕ :=
    (if condition1 then 2 else 0) + (if condition2 then 3 else 0) +
    (if condition3 then 3 else 0) + (if condition4 then 2 else 0) +
    (if volumeRate > 2 then 1 else 0) +
    (if priceBreakMa20 && priceBreakHigh then 1 else 0) +
    (if macdGoldenCross && rsiRecovery then 1 else 0)
  { etfName := etfName
    etfCode := etfCode
    currentPrice := roundTo 4 currentPrice
    maxPrice120 := roundTo 4 maxPrice120
    minPrice60 := roundTo 4 minPrice60
    drawdown := roundTo 1 (drawdown * 100)
    volumeRate := roundTo 2 volumeRate
    priceBreakMa20 := priceBreakMa20
    priceBreakHigh := priceBreakHigh
    macdGoldenCross := macdGoldenCross
    rsiRecovery := rsiRecovery
    rsiCurrent := rsiCurrent.roundP 1
    ma20 := ma20v.roundP 4
    recentHigh := roundTo 4 recentHigh
    score := score
    condition1 := condition1
    condition2 := condition2
    condition3 := condition3
    condition4 := condition4
    allConditionsMet := condition1 && condition2 && condition3 && condition4 }

/-- check_bottom_breakout of etf_breakout_analysis.py: at least 60 bars are
required, otherwise no assessment is produced. -/
def checkBottomBreakout (df : List Bar) (etfName etfCode : String) : Option Result :=
  if 60 ≤ df.length then some (mkResult df etfName etfCode) else none

/-- A bar whose four prices coincide (used for concrete test series). -/
def flatBar (c v : ℚ) : Bar := ⟨c, c, c, c, v⟩

/-- 60 bars: a steady decline 100, 99, ..., 42 followed by a one-day jump
to 72, with volume stepping from 100 to 1000 over the last 10 bars. -/
def declineSpike60 : List Bar :=
  (List.range 60).map fun i =>
    flatBar (if i ≤ 58 then (100 : ℚ) - i else 72) (if i < 50 then 100 else 1000)

/-- The reduced assessment dict built by create_basic_result in
etf_breakout_analysis_fixed.py (used when fewer than 20 bars exist).
`ma_value` is stored only when truthy (non-None and nonzero), as
`float(round(ma_value, 4)) if ma_value else None` does. -/
structure BasicResult where
  etfName : String
  etfCode : String
  currentPrice : ℚ
  priceChangePct : ℚ
  aboveMa : Bool
  maValue : Option ℚ
  volumeRate : ℚ
  score : ℕ
  allConditionsMet : Bool
  dataDays : ℕ
  analysisType : String
  deriving Repr, DecidableEq

/-- Body of create_basic_result (etf_breakout_analysis_fixed.py,
lines 326-369), evaluated on a nonempty frame. -/
def mkBasic (df : List Bar) (etfName etfCode : String) : BasicResult :=
  let closes := df.map Bar.close
  let vols := df.map Bar.volume
  let n := df.length
  let currentPrice := closes.getD (n - 1) 0
  let priceChange : ℚ :=
    if 2 ≤ n then
      let prevPrice := closes.getD (n - 2) 0
      if 0 < prevPrice then (currentPrice - prevPrice) / prevPrice * 100 else 0
    else 0
  let maWindow := min 5 n
  let maOpt : Option ℚ := if 3 ≤ maWindow then some (meanQ (takeLast maWindow closes)) else none
  let aboveMa := match maOpt with
    | some m => decide (currentPrice > m)
    | none => false
  let volumeRate : ℚ :=
    if 5 ≤ n then
      let recentVolume := meanQ (takeLast 5 vols)
      let prevVolume := if 10 ≤ n then meanQ (sliceLast 10 5 vols) else recentVolume
      if 0 < prevVolume then recentVolume / prevVolume else 1
    else 1
  let score : ℕ :=
    (if aboveMa then 2 else 0) + (if volumeRate > 6 / 5 then 2 else 0) +
    (if priceChange > 0 then 1 else 0)
  { etfName := etfName
    etfCode := etfCode
    currentPrice := roundTo 4 currentPrice
    priceChangePct := roundTo 2 priceChange
    aboveMa := aboveMa
    maValue := match maOpt with
      | some v => if v ≠ 0 then some (roundTo 4 v) else none
      | none => none
    volumeRate := roundTo 2 volumeRate
    score := score
    allConditionsMet := false
    dataDays := n
    analysisType := "basic" }

/-- create_basic_result of etf_breakout_analysis_fixed.py: `None` exactly
on an empty frame. -/
def createBasicResult (df : List Bar) (etfName etfCode : String) : Option BasicResult :=
  if df.length = 0 then none else some (mkBasic df etfName etfCode)

/-- Lines 290-292 of etf_breakout_analysis_fixed.py: the data-quality
confidence factor, `min(1.0, available_days / 60.0)`. -/
def dataQualityFactor (availableDays : ℕ) : ℚ := min 1 ((availableDays : ℚ) / 60)

/-- Line 292 of etf_breakout_analysis_fixed.py:
`final_score = min(10, base_score * (0.5 + 0.5 * data_quality_factor))`. -/
def finalScore (baseScore : ℕ) (availableDays : ℕ) : ℚ :=
  min 10 ((baseScore : ℚ) * (1 / 2 + 1 / 2 * dataQualityFactor availableDays))

/-- The deep assessment dict built by the adaptive check_bottom_breakout of
etf_breakout_analysis_fixed.py (at least 20 bars).  Fields that the source
leaves out of the dict when the indicator column is absent or NaN are
`Option`s. -/
structure AdvancedResult where
  etfName : String
  etfCode : String
  currentPrice : ℚ
  maxPrice : ℚ
  minPrice : ℚ
  drawdown : ℚ
  volumeRate : ℚ
  priceBreakMa20 : Bool
  priceBreakHigh : Bool
  macdGoldenCross : Bool
  rsiRecovery : Bool
  rsiCurrent : PVal
  ma20 : Option ℚ
  recentHigh : Option ℚ
  score : ℚ
  condition1 : Bool
  condition2 : Bool
  condition3 : Bool
  condition4 : Bool
  allConditionsMet : Bool
  dataDays : ℕ
  analysisWindow : ℕ
  deriving Repr, DecidableEq

/-- Body of the adaptive check_bottom_breakout (etf_breakout_analysis_fixed.py,
lines 212-319) over a frame augmented by
calculate_technical_indicators(df, min_days=20); the adaptive indicator
columns (MA20 with window `min(20, n // 3)`, MACD with spans
`min(12, n // 2)` / `min(26, n // 2)` / signal `min(9, n // 3)`, present only
for n ≥ 26, RSI(14) for n ≥ 14) are recomputed here from the closes with the
same presence conditions. -/
def mkAdvanced (df : List Bar) (etfName etfCode : String) : AdvancedResult :=
  let closes := df.map Bar.close
  let n := df.length
  let analysisWindow := min 60 n
  let recent := takeLast analysisWindow df
  let currentPrice := closes.getD (n - 1) 0
  let lookbackWindow := min 120 n
  let maxPrice := maxQ (takeLast lookbackWindow closes)
  let minPrice := minQ (recent.map Bar.close)
  let drawdown := if 0 < maxPrice then (maxPrice - minPrice) / maxPrice else 0
  let recentVolumeMean := meanQ (takeLast 10 (recent.map Bar.volume))
  let bottomVolumeMean := meanQ (sliceLast 20 10 (recent.map Bar.volume))
  let volumeRate := if 0 < bottomVolumeMean then recentVolumeMean / bottomVolumeMean else 1
  let maWindow := min 20 (n / 3)
  let ma20v : PVal := if 5 ≤ maWindow then rollingMeanP maWindow closes (n - 1) else .nan
  let priceBreakMa20 := qGtP currentPrice ma20v
  let lookbackHigh := min 20 (analysisWindow - 1)
  let recentHighOpt : Option ℚ :=
    if 1 < lookbackHigh then some (maxQ (sliceLast lookbackHigh 1 (recent.map Bar.high))) else none
  let priceBreakHigh := match recentHighOpt with
    | some h => decide (currentPrice > h)
    | none => false
  let macdL := macdLineS (min 12 (n / 2)) (min 26 (n / 2)) closes
  let macdS := ema (min 9 (n / 3)) macdL
  let macdGoldenCross :=
    if 26 ≤ n ∧ 2 ≤ n then
      decide (macdL.getD (n - 1) 0 > macdS.getD (n - 1) 0) &&
        decide (macdL.getD (n - 2) 0 ≤ macdS.getD (n - 2) 0)
    else false
  let rsiCurrent : PVal := if 14 ≤ n then rsi closes (n - 1) else .val 50
  let rsiRecovery :=
    if 14 ≤ n ∧ 5 ≤ n then (rsi closes (n - 5)).ltQ 30 && rsiCurrent.gtQ 50 else false
  let condition1 := decide (drawdown > 3 / 20)
  let condition2 := decide (volumeRate > 13 / 10)
  let condition3 := priceBreakMa20 || priceBreakHigh
  let condition4 := macdGoldenCross || rsiRecovery
  let baseScore : ℕ :=
    (if condition1 then 2 else 0) + (if condition2 then 2 else 0) +
    (if condition3 then 3 else 0) + (if condition4 then 2 else 0) +
    (if volumeRate > 9 / 5 then 1 else 0) +
    (if priceBreakMa20 && priceBreakHigh then 1 else 0) +
    (if macdGoldenCross && rsiRecovery then 1 else 0)
  { etfName := etfName
    etfCode := etfCode
    currentPrice := roundTo 4 currentPrice
    maxPrice := roundTo 4 maxPrice
    minPrice := roundTo 4 minPrice
    drawdown := roundTo 1 (drawdown * 100)
    volumeRate := roundTo 2 volumeRate
    priceBreakMa20 := priceBreakMa20
    priceBreakHigh := priceBreakHigh
    macdGoldenCross := macdGoldenCross
    rsiRecovery := rsiRecovery
    rsiCurrent := rsiCurrent.roundP 1
    ma20 := match ma20v with
      | .val v => some (roundTo 4 v)
      | _ => none
    recentHigh := recentHighOpt.map (roundTo 4)
    score := roundTo 1 (finalScore baseScore n)
    condition1 := condition1
    condition2 := condition2
    condition3 := condition3
    condition4 := condition4
    allConditionsMet := condition1 && condition2 && condition3 && condition4
    dataDays := n
    analysisWindow := analysisWindow }

/-- The two dict shapes the adaptive script can emit for one instrument. -/
inductive FixedResult where
  | basic : BasicResult → FixedResult
  | advanced : AdvancedResult → FixedResult
  deriving Repr, DecidableEq

/-- The 'score' entry, present in both dict shapes. -/
def FixedResult.scoreF : FixedResult → ℚ
  | .basic b => (b.score : ℚ)
  | .advanced a => a.score

/-- The 'data_days' entry, present in both dict shapes. -/
def FixedResult.dataDaysF : FixedResult → ℕ
  | .basic b => b.dataDays
  | .advanced a => a.dataDays

/-- The 'all_conditions_met' entry, present in both dict shapes. -/
def FixedResult.allMetF : FixedResult → Bool
  | .basic b => b.allConditionsMet
  | .advanced a => a.allConditionsMet

/-- Whether the dict carries the `analysis_type: basic` tag. -/
def FixedResult.isBasicF : FixedResult → Bool
  | .basic _ => true
  | .advanced _ => false

/-- check_bottom_breakout of etf_breakout_analysis_fixed.py (lines 199-319):
with `analysis_window = min(60, available_days)` below 20 the deep analysis
is skipped in favour of create_basic_result; otherwise the adaptive deep
assessment is produced. -/
def checkBottomBreakoutFixed (df : List Bar) (etfName etfCode : String) : Option FixedResult :=
  let analysisWindow := min 60 df.length
  if analysisWindow < 20 then (createBasicResult df etfName etfCode).map .basic
  else some (.advanced (mkAdvanced df etfName etfCode))

/-- 45 bars: a steady decline 100, 99, ..., 57 followed by a one-day jump
to 87, with volume stepping from 100 to 1000 over the last 10 bars. -/
def declineSpike45 : List Bar :=
  (List.range 45).map fun i =>
    flatBar (if i ≤ 43 then (100 : ℚ) - i else 87) (if i < 35 then 100 else 1000)

/-- Python's substring test `needle in hay` on character lists. -/
def substrOf (needle : List Char) : List Char → Bool
  | [] => needle.isEmpty
  | c :: rest => needle.isPrefixOf (c :: rest) || substrOf needle rest

/-- Python `str.lower()` restricted to the alphabet the ETF names use
(CJK characters are unaffected; ASCII letters are lowercased). -/
def lowerName (s : List Char) : List Char := s.map Char.toLower

/-- The fixed priority-ordered keyword table of categorize_etf
(industry_daily_monitor_enhanced.py, lines 226-271), in source order. -/
def categoryMap : List (List Char × List Char) :=
  [("半导体".toList, "半导体/芯片".toList),
   ("芯片".toList, "半导体/芯片".toList),
   ("医药".toList, "医药医疗".toList),
   ("医疗".toList, "医药医疗".toList),
   ("健康".toList, "医药医疗".toList),
   ("创新药".toList, "医药医疗".toList),
   ("生物医药".toList, "医药医疗".toList),
   ("器械".toList, "医药医疗".toList),
   ("新能源".toList, "新能源".toList),
   ("光伏".toList, "新能源".toList),
   ("电池".toList, "新能源".toList),
   ("锂电池".toList, "新能源".toList),
   ("碳中和".toList, "新能源".toList),
   ("消费".toList, "消费".toList),
   ("酒".toList, "消费".toList),
   ("食品".toList, "消费".toList),
   ("饮料".toList, "消费".toList),
   ("家电".toList, "消费".toList),
   ("科技".toList, "科技".toList),
   ("信息".toList, "科技".toList),
   ("5g".toList, "科技".toList),
   ("通信".toList, "科技".toList),
   ("人工".toList, "科技".toList),
   ("传媒".toList, "传媒娱乐".toList),
   ("游戏".toList, "传媒娱乐".toList),
   ("影视".toList, "传媒娱乐".toList),
   ("娱乐".toList, "传媒娱乐".toList),
   ("金融".toList, "金融".toList),
   ("证券".toList, "金融".toList),
   ("银行".toList, "金融".toList),
   ("保险".toList, "金融".toList),
   ("军工".toList, "军工".toList),
   ("有色".toList, "周期资源".toList),
   ("煤炭".toList, "周期资源".toList),
   ("钢铁".toList, "周期资源".toList),
   ("资源".toList, "周期资源".toList),
   ("地产".toList, "基建地产".toList),
   ("基建".toList, "基建地产".toList),
   ("建筑".toList, "基建地产".toList),
   ("建材".toList, "基建地产".toList),
   ("环保".toList, "环保".toList),
   ("旅游".toList, "旅游".toList),
   ("教育".toList, "教育".toList),
   ("体育".toList, "体育".toList)]

/-- The loop of categorize_etf over a keyword table: the first row whose
keyword occurs in the (lowercased) name decides the category; the fixed
category 其他 when the table is exhausted. -/
def categorizeLoop (table : List (List Char × List Char)) (lowered : List Char) : List Char :=
  match table with
  | [] => "其他".toList
  | (kw, cat) :: rest => if substrOf kw lowered then cat else categorizeLoop rest lowered

/-- categorize_etf of industry_daily_monitor_enhanced.py (lines 222-277). -/
def categorizeEtf (etfName : List Char) : List Char :=
  categorizeLoop categoryMap (lowerName etfName)

/-- Spec-side reading of the classifier contract: the category of the first
keyword in the fixed priority-ordered table that occurs as a substring of
the name, and 其他 when no keyword matches. -/
def categoryBySpec (etfName : List Char) : List Char :=
  ((categoryMap.find? fun p => substrOf p.1 (lowerName etfName)).map Prod.snd).getD ("其他".toList)

/-- One scored record of an input result set, as combine_results reads it
from the upstream JSON (name, code, score, all_conditions_met, data_days). -/
structure InputItem where
  name : List Char
  code : List Char
  score : ℚ
  allConditionsMet : Bool
  dataDays : Option ℕ
  deriving Repr, DecidableEq

/-- One entry of all_candidates in combine_results of
industry_daily_monitor_enhanced.py. -/
structure Candidate where
  itemType : List Char
  name : List Char
  code : List Char
  score : ℚ
  originalScore : ℚ
  category : List Char
  newsCount : ℕ
  allConditionsMet : Bool
  dataDays : Option ℕ
  deriving Repr, DecidableEq

/-- Insert `a` before the first element `b` of an already sorted list with
`le a b`; keeps earlier-inserted equal elements behind `a`. -/
def insertSorted (le : α → α → Bool) (a : α) : List α → List α
  | [] => [a]
  | b :: l => if le a b then a :: b :: l else b :: insertSorted le a l

/-- Stable insertion sort.  A stable sort by a fixed key order has a unique
result, so this computes exactly what Python's stable
`list.sort(key=..., reverse=True)` (Timsort) produces. -/
def stableSort (le : α → α → Bool) : List α → List α
  | [] => []
  | a :: l => insertSorted le a (stableSort le l)

/-- Python's stable `list.sort(key=score, reverse=True)`: `a` sorts before
`b` exactly when `key a ≥ key b`, ties keeping input order. -/
def sortByScoreDesc (key : α → ℚ) (l : List α) : List α :=
  stableSort (fun a b => key b ≤ key a) l

/-- The industry part of all_candidates (industry_daily_monitor_enhanced.py,
lines 344-362): the first 5 industries; the news lookup (an external
collaborator, modelled as the oracle `news` giving the number of snippets
found for a name) runs only for a nonempty name; the news bonus of 0.5 is
applied under the cap `min(10, score + bonus)`. -/
def industryCandidates (news : List Char → ℕ) (industries : List InputItem) : List Candidate :=
  (industries.take 5).map fun ind =>
    let newsCount := if ind.name ≠ [] then news ind.name else 0
    { itemType := "industry".toList
      name := ind.name
      code := ind.code
      score := min 10 (ind.score + if 0 < newsCount then 1 / 2 else 0)
      originalScore := ind.score
      category := "行业指数".toList
      newsCount := newsCount
      allConditionsMet := ind.allConditionsMet
      dataDays := ind.dataDays }

/-- The ETF part of all_candidates (industry_daily_monitor_enhanced.py,
lines 300-316 and 364-386): the first 15 ETFs are categorized and news is
looked up only for scores ≥ 6; the 10 best of them (stable sort by score)
become candidates, with the capped news bonus. -/
def etfCandidates (news : List Char → ℕ) (etfs : List InputItem) : List Candidate :=
  let tagged := (etfs.take 15).map fun e =>
    (e, categorizeEtf e.name, if 6 ≤ e.score then news e.name else 0)
  let sorted := (sortByScoreDesc (fun t => t.1.score) tagged).take 10
  sorted.map fun t =>
    { itemType := "etf".toList
      name := t.1.name
      code := t.1.code
      score := min 10 (t.1.score + if 0 < t.2.2 then 1 / 2 else 0)
      originalScore := t.1.score
      category := t.2.1
      newsCount := t.2.2
      allConditionsMet := t.1.allConditionsMet
      dataDays := t.1.dataDays }

/-- all_candidates of combine_results after its final stable sort by
descending score (industry_daily_monitor_enhanced.py, lines 341-389). -/
def mergedCandidates (news : List Char → ℕ) (industries etfs : List InputItem) : List Candidate :=
  sortByScoreDesc Candidate.score (industryCandidates news industries ++ etfCandidates news etfs)

/-- top_recommendations of combine_results
(industry_daily_monitor_enhanced.py, line 390): the 5 best candidates. -/
def topRecommendations (news : List Char → ℕ) (industries etfs : List InputItem) : List Candidate :=
  (mergedCandidates news industries etfs).take 5

/-- One entry of all_breakouts in combine_results of the plain monitor
(industry_daily_monitor.py, lines 188-222). -/
structure PlainCandidate where
  itemType : List Char
  name : List Char
  code : List Char
  score : ℚ
  breakoutScore : ℚ
  newsCount : ℕ
  allConditionsMet : Bool
  deriving Repr, DecidableEq

/-- The industry part of all_breakouts in the plain monitor
(industry_daily_monitor.py, lines 189-205): the news bonus of 0.5 is added
to the score with no cap. -/
def plainIndustryBreakouts (news : List Char → ℕ) (industries : List InputItem) : List PlainCandidate :=
  (industries.take 5).map fun ind =>
    let newsCount := if ind.name ≠ [] then news ind.name else 0
    let score := ind.score + if 0 < newsCount then 1 / 2 else 0
    { itemType := "industry".toList
      name := ind.name
      code := ind.code
      score := score
      breakoutScore := score
      newsCount := newsCount
      allConditionsMet := ind.allConditionsMet }

/-- The ETF part of all_breakouts in the plain monitor
(industry_daily_monitor.py, lines 207-221): no news, no bonus. -/
def plainEtfBreakouts (etfs : List InputItem) : List PlainCandidate :=
  (etfs.take 5).map fun e =>
    { itemType := "etf".toList
      name := e.name
      code := e.code
      score := e.score
      breakoutScore := e.score
      newsCount := 0
      allConditionsMet := e.allConditionsMet }

/-- all_breakouts of the plain monitor's combine_results after its stable
sort by descending score (industry_daily_monitor.py, lines 223-225);
top_recommendations is its first 3 entries. -/
def plainAllBreakouts (news : List Char → ℕ) (industries etfs : List InputItem) : List PlainCandidate :=
  sortByScoreDesc PlainCandidate.score
    (plainIndustryBreakouts news industries ++ plainEtfBreakouts etfs)

/-- The macd_golden_cross flag of analyze_breakout (etf_analysis.py,
lines 142-143): it compares the last two bars of the MACD/signal columns and
uses a STRICT previous-bar inequality,
`(prev MACD < prev signal) and (latest MACD > latest signal)`;
analyze_breakout requires `lookback_days = 120` bars of history. -/
def analyzeBreakoutCross (df : List Bar) : Option Bool :=
  let closes := df.map Bar.close
  let n := df.length
  if 120 ≤ n then
    some (decide ((macdLine closes).getD (n - 2) 0 < (macdSignal closes).getD (n - 2) 0) &&
      decide ((macdLine closes).getD (n - 1) 0 > (macdSignal closes).getD (n - 1) 0))
  else none

/-- 120 bars: flat at 50 for 119 days, then one close at 60.  On this series
MACD and signal are both exactly 0 on the second-to-last bar (equality), and
MACD is strictly above the signal on the last bar. -/
def flatJump120 : List Bar :=
  (List.range 120).map fun i => flatBar (if i ≤ 118 then (50 : ℚ) else 60) 100

/-- 60 identical closes: every 14-bar window has zero average gain and zero
average loss (no down days at all). -/
def flatCloses60 : List ℚ := List.replicate 60 50

/-- 20 strictly increasing closes: every full 14-bar window has positive
average gain and zero average loss. -/
def upCloses20 : List ℚ := (List.range 20).map fun i => (i : ℚ)

/-- 5 bars of rising prices at constant volume: a short history that only
qualifies for the basic-mode assessment. -/
def shortBars5 : List Bar :=
  [flatBar 10 100, flatBar 11 100, flatBar 12 100, flatBar 13 100, flatBar 14 100]

/-- A news oracle that finds no snippets for any name. -/
def noNews : List Char → ℕ := fun _ => 0

/-- A news oracle that finds one snippet for every name. -/
def oneNews : List Char → ℕ := fun _ => 1

/-- An industry record with identifier X and score 5. -/
def indX : InputItem := ⟨"a".toList, "X".toList, 5, false, none⟩

/-- An ETF record with the same identifier X and score 4. -/
def etfX : InputItem := ⟨"b".toList, "X".toList, 4, false, none⟩

/-- An industry record with the maximal raw score 10. -/
def indTen : InputItem := ⟨"a".toList, "I1".toList, 10, false, none⟩

/-- The single candidate that combine_results of the enhanced monitor builds
from `indX` when no news is found. -/
def candX : Candidate :=
  ⟨"industry".toList, "a".toList, "X".toList, 5, 5, "行业指数".toList, 0, false, none⟩

theorem insertSorted_perm (le : α → α → Bool) (a : α) :
    ∀ l : List α, List.Perm (insertSorted le a l) (a :: l) := by
  intro l
  induction l with
  | nil => rfl
  | cons b l ih =>
    unfold insertSorted
    split_ifs
    · rfl
    · exact (ih.cons b).trans (List.Perm.swap a b l)

theorem stableSort_perm (le : α → α → Bool) : ∀ l : List α, List.Perm (stableSort le l) l := by
  intro l
  induction l with
  | nil => rfl
  | cons a l ih => exact (insertSorted_perm le a (stableSort le l)).trans (ih.cons a)

theorem gains_nonneg (xs : List ℚ) : ∀ x ∈ gains xs, 0 ≤ x := by
  intro x hx
  simp only [gains, List.mem_map] at hx
  obtain ⟨d, _, rfl⟩ := hx
  split_ifs with h
  · exact le_of_lt h
  · exact le_refl 0

theorem losses_nonneg (xs : List ℚ) : ∀ x ∈ losses xs, 0 ≤ x := by
  intro x hx
  simp only [losses, List.mem_map] at hx
  obtain ⟨d, _, rfl⟩ := hx
  split_ifs with h
  · linarith
  · exact le_refl 0

theorem meanQ_nonneg (l : List ℚ) (h : ∀ x ∈ l, 0 ≤ x) : 0 ≤ meanQ l :=
  div_nonneg (List.sum_nonneg h) (Nat.cast_nonneg _)

theorem rollingMeanP_shape (w : ℕ) (xs : List ℚ) (i : ℕ) :
    rollingMeanP w xs i = .nan ∨
      ∃ a, rollingMeanP w xs i = .val a ∧ ((∀ x ∈ xs, 0 ≤ x) → 0 ≤ a) := by
  unfold rollingMeanP
  split
  · refine Or.inr ⟨_, rfl, fun h => meanQ_nonneg _ fun x hx => ?_⟩
    exact h x ((List.take_subset _ _) ((List.drop_subset _ _) hx))
  · exact Or.inl rfl

theorem categorizeLoop_eq_find (table : List (List Char × List Char)) (lowered : List Char) :
    categorizeLoop table lowered =
      ((table.find? fun p => substrOf p.1 lowered).map Prod.snd).getD ("其他".toList) := by
  induction table with
  | nil => rfl
  | cons hd tl ih =>
    unfold categorizeLoop
    by_cases h : substrOf hd.1 lowered
    · simp [List.find?_cons, h]
    · simp [List.find?_cons, h, ih]

/-- C9: categorize_etf is total and deterministic by construction (a pure
Lean function); its value on every name is the category of the first
keyword of the fixed priority-ordered table occurring as a substring of the
lowercased name, and the fixed category 其他 when no keyword matches. -/
theorem categorize_first_keyword : ∀ name : List Char, categorizeEtf name = categoryBySpec name := by
  intro name
  unfold categorizeEtf categoryBySpec
  exact categorizeLoop_eq_find categoryMap (lowerName name)

/-- C5 (amended): combine_results of the enhanced monitor performs no
deduplication by identifier: for every identifier, the merged candidate
ranking carries exactly one record per qualifying input occurrence (first-5
industries plus top-10-of-first-15 ETFs), so a code present in both input
sets yields two records, not one. -/
theorem merge_keeps_every_occurrence :
    ∀ (news : List Char → ℕ) (industries etfs : List InputItem) (code : List Char),
      (mergedCandidates news industries etfs).countP (fun c => c.code == code) =
        (industryCandidates news industries).countP (fun c => c.code == code) +
          (etfCandidates news etfs).countP (fun c => c.code == code) := by
  intro news industries etfs code
  unfold mergedCandidates sortByScoreDesc
  rw [(stableSort_perm _ _).countP_eq]
  exact List.countP_append _ _ _

/-- C7: for every nonempty frame with fewer than 20 bars the adaptive
check_bottom_breakout skips the deep evaluation and returns exactly
create_basic_result's reduced assessment, which is tagged
analysis_type = basic; being a total Lean function, it raises nothing. -/
theorem short_history_basic_mode :
    ∀ (df : List Bar) (etfName etfCode : String), df ≠ [] → df.length < 20 →
      checkBottomBreakoutFixed df etfName etfCode =
        some (.basic (mkBasic df etfName etfCode)) ∧
      (mkBasic df etfName etfCode).analysisType = "basic" := by
  intro df nm cd h1 h2
  have h0 : ¬ df.length = 0 := by simpa [List.length_eq_zero] using h1
  have hm : min 60 df.length < 20 := by omega
  refine ⟨?_, rfl⟩
  unfold checkBottomBreakoutFixed createBasicResult
  simp [hm, h0]

/-- C7 witness at a 5-bar history. -/
theorem short_history_basic_mode_witness :
    checkBottomBreakoutFixed shortBars5 "x" "y" =
      some (.basic (mkBasic shortBars5 "x" "y")) ∧
    (mkBasic shortBars5 "x" "y").analysisType = "basic" :=
  short_history_basic_mode shortBars5 "x" "y" (by decide) (by decide)

/-- C10: every reduced assessment produced by create_basic_result has
all_conditions_met = false and a score of at most 5 (weights 2 + 2 + 1). -/
theorem basic_result_invariants :
    ∀ (df : List Bar) (etfName etfCode : String) (b : BasicResult),
      createBasicResult df etfName etfCode = some b →
        b.allConditionsMet = false ∧ b.score ≤ 5 := by
  intro df nm cd b h
  unfold createBasicResult at h
  by_cases h0 : df.length = 0
  · simp [h0] at h
  · simp [h0] at h
    subst h
    refine ⟨rfl, ?_⟩
    show (mkBasic df nm cd).score ≤ 5
    unfold mkBasic
    dsimp only
    split_ifs <;> norm_num

/-- C10 witness at a 5-bar history. -/
theorem basic_result_invariants_witness :
    (mkBasic shortBars5 "x" "y").allConditionsMet = false ∧
    (mkBasic shortBars5 "x" "y").score ≤ 5 :=
  basic_result_invariants shortBars5 "x" "y" (mkBasic shortBars5 "x" "y") (by decide)

/-- C8 (amended): in the enhanced monitor every merged candidate's displayed
score equals min(10, original score + bonus) with bonus 1/2 exactly when at
least one news snippet was found, hence never exceeds 10 and never exceeds
the original score by more than 1/2.  (The plain monitor's industry bonus is
uncapped; see the counterexample.) -/
theorem enhanced_bonus_capped :
    ∀ (news : List Char → ℕ) (industries etfs : List InputItem) (c : Candidate),
      c ∈ mergedCandidates news industries etfs →
        c.score = min 10 (c.originalScore + if 0 < c.newsCount then 1 / 2 else 0) ∧
        c.score ≤ 10 ∧ c.score ≤ c.originalScore + 1 / 2 := by
  intro news industries etfs c hc
  unfold mergedCandidates sortByScoreDesc at hc
  rw [(stableSort_perm _ _).mem_iff, List.mem_append] at hc
  have main : c.score = min 10 (c.originalScore + if 0 < c.newsCount then 1 / 2 else 0) := by
    rcases hc with h | h
    · unfold industryCandidates at h
      rw [List.mem_map] at h
      obtain ⟨ind, _, rfl⟩ := h
      rfl
    · unfold etfCandidates at h
      rw [List.mem_map] at h
      obtain ⟨t, _, rfl⟩ := h
      rfl
  refine ⟨main, main ▸ min_le_left _ _, main ▸ ?_⟩
  refine le_trans (min_le_right _ _) ?_
  split_ifs <;> linarith

/-- C8 witness at a single industry record with no news found. -/
theorem enhanced_bonus_capped_witness :
    candX.score = min 10 (candX.originalScore + if 0 < candX.newsCount then 1 / 2 else 0) ∧
    candX.score ≤ 10 ∧ candX.score ≤ candX.originalScore + 1 / 2 :=
  enhanced_bonus_capped noNews [indX] [] candX (by decide)

/-- C1: on every frame accepted for full scoring, all_conditions_met is
exactly the conjunction of the four condition booleans, and in particular it
is false whenever exactly three of the four hold, independently of the
numeric score. -/
theorem all_conditions_flag_iff :
    ∀ (df : List Bar) (etfName etfCode : String), 60 ≤ df.length →
      checkBottomBreakout df etfName etfCode = some (mkResult df etfName etfCode) ∧
      (mkResult df etfName etfCode).allConditionsMet =
        ((mkResult df etfName etfCode).condition1 && (mkResult df etfName etfCode).condition2 &&
          (mkResult df etfName etfCode).condition3 && (mkResult df etfName etfCode).condition4) ∧
      ((if (mkResult df etfName etfCode).condition1 then 1 else 0) +
          (if (mkResult df etfName etfCode).condition2 then 1 else 0) +
          (if (mkResult df etfName etfCode).condition3 then 1 else 0) +
          (if (mkResult df etfName etfCode).condition4 then 1 else 0) = (3 : ℕ) →
        (mkResult df etfName etfCode).allConditionsMet = false) := by
  intro df nm cd h
  have hflag : (mkResult df nm cd).allConditionsMet =
      ((mkResult df nm cd).condition1 && (mkResult df nm cd).condition2 &&
        (mkResult df nm cd).condition3 && (mkResult df nm cd).condition4) := rfl
  refine ⟨by simp [checkBottomBreakout, h], hflag, ?_⟩
  rw [hflag]
  generalize (mkResult df nm cd).condition1 = a
  generalize (mkResult df nm cd).condition2 = b
  generalize (mkResult df nm cd).condition3 = c
  generalize (mkResult df nm cd).condition4 = d
  revert a b c d
  decide

/-- C4 (corrected, counterexample): on a fully flat 60-bar series the final
RSI window has zero average loss (no down days at all) and zero average
gain, and the stored RSI value is NaN (undefined) -- not a value near 100. -/
theorem rsi_flat_window_nan :
    rsi flatCloses60 59 = PVal.nan ∧
    rollingMeanP 14 (losses flatCloses60) 59 = PVal.val 0 ∧
    rollingMeanP 14 (gains flatCloses60) 59 = PVal.val 0 := by
  refine ⟨by decide, by decide, by decide⟩

/-- C4 (amended): every defined RSI value lies in [0, 100]; a window with
zero average loss and positive average gain yields exactly 100 (never a
division failure); and the epsilon variant also keeps every defined value
inside [0, 100].  (An all-flat window yields NaN, see the counterexample.) -/
theorem rsi_defined_values_bounded :
    (∀ closes i q, rsi closes i = PVal.val q → 0 ≤ q ∧ q ≤ 100) ∧
    (∀ closes i g, rollingMeanP 14 (losses closes) i = PVal.val 0 →
      rollingMeanP 14 (gains closes) i = PVal.val g → 0 < g →
      rsi closes i = PVal.val 100) ∧
    (∀ closes i q, rsiSimple closes i = PVal.val q → 0 ≤ q ∧ q ≤ 100) := by
  refine ⟨?_, ?_, ?_⟩
  · intro closes i q h
    unfold rsi at h
    rcases rollingMeanP_shape 14 (gains closes) i with hg | ⟨a, hg, hga⟩
    · rw [hg] at h
      simp [PVal.div, PVal.add, PVal.sub] at h
    rcases rollingMeanP_shape 14 (losses closes) i with hl | ⟨b, hl, hlb⟩
    · rw [hg, hl] at h
      simp [PVal.div, PVal.add, PVal.sub] at h
    have ha : 0 ≤ a := hga (gains_nonneg closes)
    have hb : 0 ≤ b := hlb (losses_nonneg closes)
    rw [hg, hl] at h
    by_cases hb0 : b = 0
    · subst hb0
      by_cases ha0 : 0 < a
      · simp [PVal.div, PVal.add, PVal.sub, ha0] at h
        subst h
        norm_num
      · have ha0' : a = 0 := le_antisymm (not_lt.mp ha0) ha
        subst ha0'
        simp [PVal.div, PVal.add, PVal.sub] at h
    · have hbpos : 0 < b := lt_of_le_of_ne hb (Ne.symm hb0)
      have hr : 0 ≤ a / b := div_nonneg ha hb
      have h1r : (0 : ℚ) < 1 + a / b := by linarith
      simp [PVal.div, PVal.add, PVal.sub, hb0, ne_of_gt h1r] at h
      subst h
      constructor
      · have hd : 100 / (1 + a / b) ≤ 100 := by
          apply div_le_self (by norm_num) (by linarith)
        linarith
      · have hd : 0 < 100 / (1 + a / b) := by positivity
        linarith
  · intro closes i g hl hg hgpos
    unfold rsi
    rw [hg, hl]
    simp [PVal.div, PVal.add, PVal.sub, hgpos]
  · intro closes i q h
    unfold rsiSimple at h
    rcases rollingMeanP_shape 14 (gains closes) i with hg | ⟨a, hg, hga⟩
    · rw [hg] at h
      simp [PVal.div, PVal.add, PVal.sub] at h
    rcases rollingMeanP_shape 14 (losses closes) i with hl | ⟨b, hl, hlb⟩
    · rw [hg, hl] at h
      simp [PVal.div, PVal.add, PVal.sub] at h
    have ha : 0 ≤ a := hga (gains_nonneg closes)
    have hb : 0 ≤ b := hlb (losses_nonneg closes)
    rw [hg, hl] at h
    set e : ℚ := b + (100000000 : ℚ)⁻¹ with he
    have hbe : (0 : ℚ) < e := by rw [he]; positivity
    have hr : 0 ≤ a / e := div_nonneg ha (le_of_lt hbe)
    have h1r : (0 : ℚ) < 1 + a / e := by linarith
    simp [PVal.div, PVal.add, PVal.sub, ne_of_gt hbe, ne_of_gt h1r] at h
    subst h
    constructor
    · rw [← he]
      have hd : 100 / (1 + a / e) ≤ 100 := by
        apply div_le_self (by norm_num) (by linarith)
      linarith
    · rw [← he]
      have hd : 0 < 100 / (1 + a / e) := by positivity
      linarith

/-- C4 witness: on 20 strictly rising closes the index-13 window has zero
average loss and positive average gain, and the RSI saturates at exactly
100, inside [0, 100]. -/
theorem rsi_defined_values_bounded_witness :
    rsi upCloses20 13 = PVal.val 100 ∧ 0 ≤ (100 : ℚ) ∧ (100 : ℚ) ≤ 100 := by
  have h100 := rsi_defined_values_bounded.2.1 upCloses20 13 (13 / 14)
    (by decide) (by decide) (by norm_num)
  exact ⟨h100, rsi_defined_values_bounded.1 upCloses20 13 100 h100⟩

/-- C1 witness at a 60-bar decline-then-spike history on which the flag and
all four conditions are true. -/
theorem all_conditions_flag_iff_witness :
    60 ≤ declineSpike60.length ∧
    (checkBottomBreakout declineSpike60 "x" "y" = some (mkResult declineSpike60 "x" "y") ∧
      (mkResult declineSpike60 "x" "y").allConditionsMet =
        ((mkResult declineSpike60 "x" "y").condition1 &&
          (mkResult declineSpike60 "x" "y").condition2 &&
          (mkResult declineSpike60 "x" "y").condition3 &&
          (mkResult declineSpike60 "x" "y").condition4) ∧
      ((if (mkResult declineSpike60 "x" "y").condition1 then 1 else 0) +
          (if (mkResult declineSpike60 "x" "y").condition2 then 1 else 0) +
          (if (mkResult declineSpike60 "x" "y").condition3 then 1 else 0) +
          (if (mkResult declineSpike60 "x" "y").condition4 then 1 else 0) = (3 : ℕ) →
        (mkResult declineSpike60 "x" "y").allConditionsMet = false)) :=
  ⟨by decide, all_conditions_flag_iff declineSpike60 "x" "y" (by decide)⟩

/-- C2: on the 60-bar decline-then-spike history every condition and every
bonus fires and check_bottom_breakout stores score 13, above the claimed
(and self-documented) cap of 10; nothing in the source clamps the sum
2+3+3+2 plus the three bonus points. -/
theorem score_exceeds_ten_on_spike :
    checkBottomBreakout declineSpike60 "x" "y" = some (mkResult declineSpike60 "x" "y") ∧
    (mkResult declineSpike60 "x" "y").score = 13 ∧
    10 < (mkResult declineSpike60 "x" "y").score ∧
    (mkResult declineSpike60 "x" "y").allConditionsMet = true := by
  refine ⟨by decide, by decide, by decide, by decide⟩

/-- C3 (corrected, counterexample): on 119 flat bars followed by a jump, the
MACD line equals the signal line on the second-to-last bar (so the claimed
non-strict rule fires: previous line ≤ previous signal and current line >
current signal), yet analyze_breakout of etf_analysis.py declares NO golden
cross, because it requires the strict previous-bar inequality `<`. -/
theorem strict_cross_missed_at_equality :
    analyzeBreakoutCross flatJump120 = some false ∧
    (macdLine (flatJump120.map Bar.close)).getD 118 0 ≤
      (macdSignal (flatJump120.map Bar.close)).getD 118 0 ∧
    (macdLine (flatJump120.map Bar.close)).getD 119 0 >
      (macdSignal (flatJump120.map Bar.close)).getD 119 0 := by
  refine ⟨by decide, by decide, by decide⟩

/-- C3 (amended): in check_bottom_breakout the final-bar golden cross is
declared exactly when line(t-1) ≤ signal(t-1) (non-strict) and
line(t) > signal(t); in analyze_breakout of etf_analysis.py the previous-bar
inequality is strict instead; in both versions, a series whose MACD line
never exceeds the signal line yields no golden-cross event. -/
theorem golden_cross_rules :
    ∀ (df : List Bar) (etfName etfCode : String), 60 ≤ df.length →
      ((mkResult df etfName etfCode).macdGoldenCross =
        (decide ((macdLine (df.map Bar.close)).getD (df.length - 1) 0 >
            (macdSignal (df.map Bar.close)).getD (df.length - 1) 0) &&
          decide ((macdLine (df.map Bar.close)).getD (df.length - 2) 0 ≤
            (macdSignal (df.map Bar.close)).getD (df.length - 2) 0))) ∧
      (120 ≤ df.length →
        analyzeBreakoutCross df =
          some (decide ((macdLine (df.map Bar.close)).getD (df.length - 2) 0 <
              (macdSignal (df.map Bar.close)).getD (df.length - 2) 0) &&
            decide ((macdLine (df.map Bar.close)).getD (df.length - 1) 0 >
              (macdSignal (df.map Bar.close)).getD (df.length - 1) 0))) ∧
      ((∀ i, (macdLine (df.map Bar.close)).getD i 0 ≤
          (macdSignal (df.map Bar.close)).getD i 0) →
        (mkResult df etfName etfCode).macdGoldenCross = false ∧
          (120 ≤ df.length → analyzeBreakoutCross df = some false)) := by
  intro df nm cd h60
  have hb : 120 ≤ df.length →
      analyzeBreakoutCross df =
        some (decide ((macdLine (df.map Bar.close)).getD (df.length - 2) 0 <
            (macdSignal (df.map Bar.close)).getD (df.length - 2) 0) &&
          decide ((macdLine (df.map Bar.close)).getD (df.length - 1) 0 >
            (macdSignal (df.map Bar.close)).getD (df.length - 1) 0)) := by
    intro h120
    unfold analyzeBreakoutCross
    simp [h120]
  refine ⟨rfl, hb, ?_⟩
  intro hnever
  have hcur : ¬ ((macdLine (df.map Bar.close)).getD (df.length - 1) 0 >
      (macdSignal (df.map Bar.close)).getD (df.length - 1) 0) :=
    not_lt.mpr (hnever (df.length - 1))
  constructor
  · have hflag : (mkResult df nm cd).macdGoldenCross =
        (decide ((macdLine (df.map Bar.close)).getD (df.length - 1) 0 >
            (macdSignal (df.map Bar.close)).getD (df.length - 1) 0) &&
          decide ((macdLine (df.map Bar.close)).getD (df.length - 2) 0 ≤
            (macdSignal (df.map Bar.close)).getD (df.length - 2) 0)) := rfl
    rw [hflag, decide_eq_false hcur, Bool.false_and]
  · intro h120
    rw [hb h120, decide_eq_false hcur, Bool.and_false]

/-- C3 witness at the flat-then-jump 120-bar history. -/
theorem golden_cross_rules_witness :
    60 ≤ flatJump120.length ∧
    (((mkResult flatJump120 "x" "y").macdGoldenCross =
        (decide ((macdLine (flatJump120.map Bar.close)).getD (flatJump120.length - 1) 0 >
            (macdSignal (flatJump120.map Bar.close)).getD (flatJump120.length - 1) 0) &&
          decide ((macdLine (flatJump120.map Bar.close)).getD (flatJump120.length - 2) 0 ≤
            (macdSignal (flatJump120.map Bar.close)).getD (flatJump120.length - 2) 0))) ∧
      (120 ≤ flatJump120.length →
        analyzeBreakoutCross flatJump120 =
          some (decide ((macdLine (flatJump120.map Bar.close)).getD (flatJump120.length - 2) 0 <
              (macdSignal (flatJump120.map Bar.close)).getD (flatJump120.length - 2) 0) &&
            decide ((macdLine (flatJump120.map Bar.close)).getD (flatJump120.length - 1) 0 >
              (macdSignal (flatJump120.map Bar.close)).getD (flatJump120.length - 1) 0))) ∧
      ((∀ i, (macdLine (flatJump120.map Bar.close)).getD i 0 ≤
          (macdSignal (flatJump120.map Bar.close)).getD i 0) →
        (mkResult flatJump120 "x" "y").macdGoldenCross = false ∧
          (120 ≤ flatJump120.length → analyzeBreakoutCross flatJump120 = some false))) :=
  ⟨by decide, golden_cross_rules flatJump120 "x" "y" (by decide)⟩

/-- C5 (corrected, counterexample): feeding the enhanced combine_results an
industry set and an ETF set that share the identifier X (scores 5 and 4)
yields TWO records for X in the merged top_recommendations, both scores
surviving -- not one record carrying the higher score. -/
theorem duplicate_code_two_records :
    (topRecommendations noNews [indX] [etfX]).countP (fun c => c.code == "X".toList) = 2 ∧
    (topRecommendations noNews [indX] [etfX]).map Candidate.score = [5, 4] := by
  refine ⟨by decide, by decide⟩

/-- C6 (corrected, counterexample): a 45-bar decline-then-spike history (all
four conditions plus all three bonuses, base score 12) is scored by the
adaptive check_bottom_breakout as exactly 10 -- the maximal score -- despite
data_days = 45 < 60, and 10 differs from base times the confidence factor
(12 * 0.875 = 10.5), because of the min(10, ...) clamp. -/
theorem thin_history_max_score :
    (checkBottomBreakoutFixed declineSpike45 "x" "y").map FixedResult.scoreF = some 10 ∧
    (checkBottomBreakoutFixed declineSpike45 "x" "y").map FixedResult.dataDaysF = some 45 ∧
    (checkBottomBreakoutFixed declineSpike45 "x" "y").map FixedResult.isBasicF = some false ∧
    (checkBottomBreakoutFixed declineSpike45 "x" "y").map FixedResult.allMetF = some true ∧
    (45 : ℕ) < 60 ∧
    ¬ ((10 : ℚ) = 12 * (1 / 2 + 1 / 2 * dataQualityFactor 45)) := by
  refine ⟨by decide, by decide, by decide, by decide, by decide, by decide⟩

/-- C6 (amended): the stored final score is min(10, base * factor) with
factor = 0.5 + 0.5 * min(1, available/60); the factor is never below 0.5 and
is exactly 1 from 60 bars of history on; the final score never exceeds 10;
and a thin history cannot reach 10 when the bonus-augmented base score is at
most 10 (the base can reach 12, which is how the counterexample hits 10). -/
theorem final_score_cap_properties :
    ∀ baseScore availableDays : ℕ,
      finalScore baseScore availableDays =
        min 10 ((baseScore : ℚ) * (1 / 2 + 1 / 2 * dataQualityFactor availableDays)) ∧
      1 / 2 ≤ 1 / 2 + 1 / 2 * dataQualityFactor availableDays ∧
      (60 ≤ availableDays → 1 / 2 + 1 / 2 * dataQualityFactor availableDays = 1) ∧
      finalScore baseScore availableDays ≤ 10 ∧
      (availableDays < 60 → baseScore ≤ 10 → finalScore baseScore availableDays < 10) := by
  intro base days
  have hq0 : 0 ≤ dataQualityFactor days := by
    apply le_min
    · norm_num
    · positivity
  refine ⟨rfl, by linarith, ?_, min_le_left _ _, ?_⟩
  · intro h
    have h1 : (1 : ℚ) ≤ (days : ℚ) / 60 := by
      rw [le_div_iff₀ (by norm_num)]
      rw [one_mul]
      exact_mod_cast h
    unfold dataQualityFactor
    rw [min_eq_left h1]
    norm_num
  · intro hdays hbase
    have hd : (days : ℚ) / 60 < 1 := by
      rw [div_lt_one (by norm_num)]
      exact_mod_cast hdays
    have hfq : dataQualityFactor days = (days : ℚ) / 60 :=
      min_eq_right (le_of_lt hd)
    have hflt : 1 / 2 + 1 / 2 * dataQualityFactor days < 1 := by
      rw [hfq]; linarith
    have hb : (base : ℚ) ≤ 10 := by exact_mod_cast hbase
    have hmul : (base : ℚ) * (1 / 2 + 1 / 2 * dataQualityFactor days) ≤
        10 * (1 / 2 + 1 / 2 * dataQualityFactor days) :=
      mul_le_mul_of_nonneg_right hb (by linarith)
    have hlt : (base : ℚ) * (1 / 2 + 1 / 2 * dataQualityFactor days) < 10 := by
      nlinarith
    exact lt_of_le_of_lt (min_le_right _ _) hlt

/-- C6 witness: with base score 8 and 40 bars the final score stays below
10, and at 70 bars the confidence factor is exactly 1. -/
theorem final_score_cap_properties_witness :
    finalScore 8 40 < 10 ∧ 1 / 2 + 1 / 2 * dataQualityFactor 70 = 1 :=
  ⟨(final_score_cap_properties 8 40).2.2.2.2 (by norm_num) (by norm_num),
    (final_score_cap_properties 8 70).2.2.1 (by norm_num)⟩

/-- C8 (corrected, counterexample): in the plain monitor an industry with
raw score 10 and one found news snippet is displayed with score 10.5, which
exceeds 10 and differs from min(10, 10 + 0.5) = 10: the news bonus there is
added without the cap. -/
theorem plain_bonus_uncapped :
    (plainAllBreakouts oneNews [indTen] []).map PlainCandidate.score = [21 / 2] ∧
    ¬ ((21 : ℚ) / 2 ≤ 10) ∧
    (21 : ℚ) / 2 ≠ min 10 (10 + 1 / 2) := by
  refine ⟨by decide, by decide, by decide⟩
